import Mathlib

/- Verification development for the llamaindex-agents notebooks.

   The repository consists of four Jupyter notebooks (a function-agent
   notebook, a DuckDuckGo search notebook, an arXiv research notebook and a
   code-interpreter notebook).  Each notebook is a short sequence of local
   Python statements: load a credential with dotenv, instantiate one tool,
   construct an agent bound to that tool and an OpenAI-hosted LLM, and issue
   chat turns.  Below we embed that local code shallowly: the `multiply`
   tool body is embedded as a small expression/statement AST with an
   effect-logging evaluator, and each notebook is embedded as a list of
   local statements interpreted by a state-passing evaluator in which every
   call into the external agent library consumes an outcome from an oracle
   (so that library failures and responses are explicit inputs). -/

/- Part 1: the multiply tool of the function-agent notebook.

   Source: `def multiply(a: float, b: float) -> float. return a * b`.
   Numeric values are modelled as exact rationals: Python integers multiply
   exactly and the annotation `float` is not enforced by Python; IEEE
   rounding of float inputs is outside this embedding. -/

/-- Arithmetic expressions of the embedded Python fragment. -/
inductive AExpr
  | num (q : ℚ)
  | var (x : String)
  | add (l r : AExpr)
  | mul (l r : AExpr)
deriving DecidableEq

/-- Statements that can appear in an embedded Python function body.  The
`printS` form performs an observable effect, so a body that produces an
empty effect log provably has no effect besides returning its value. -/
inductive FStmt
  | ret (e : AExpr)
  | printS (e : AExpr)
  | assignS (x : String) (e : AExpr)
deriving DecidableEq

/-- An embedded Python function definition. -/
structure PyFunc where
  params : List String
  docstring : String
  body : List FStmt
deriving DecidableEq

/-- Look up a variable in a numeric environment (most recent binding first). -/
def lookupNum (ρ : List (String × ℚ)) (x : String) : Option ℚ :=
  (ρ.find? (fun p => p.1 == x)).map Prod.snd

/-- Evaluate an arithmetic expression; an unbound variable is a NameError. -/
def AExpr.eval (ρ : List (String × ℚ)) : AExpr → Except String ℚ
  | .num q => .ok q
  | .var x =>
    match lookupNum ρ x with
    | some q => .ok q
    | none => .error "NameError"
  | .add l r =>
    match l.eval ρ, r.eval ρ with
    | .ok a, .ok b => .ok (a + b)
    | .error e, _ => .error e
    | _, .error e => .error e
  | .mul l r =>
    match l.eval ρ, r.eval ρ with
    | .ok a, .ok b => .ok (a * b)
    | .error e, _ => .error e
    | _, .error e => .error e

/-- Execute a function body: returns the returned value (if any) together
with the log of printed values (the observable effects of the body). -/
def runBody : List FStmt → List (String × ℚ) → List ℚ →
    Except String (Option ℚ × List ℚ)
  | [], _, log => .ok (none, log)
  | .ret e :: _, ρ, log =>
    match e.eval ρ with
    | .ok q => .ok (some q, log)
    | .error err => .error err
  | .printS e :: rest, ρ, log =>
    match e.eval ρ with
    | .ok q => runBody rest ρ (log ++ [q])
    | .error err => .error err
  | .assignS x e :: rest, ρ, log =>
    match e.eval ρ with
    | .ok q => runBody rest ((x, q) :: ρ) log
    | .error err => .error err

/-- Call an embedded Python function on positional arguments.  The result is
the returned value paired with the list of effects the body performed. -/
def callFunc (f : PyFunc) (args : List ℚ) : Except String (ℚ × List ℚ) :=
  if f.params.length = args.length then
    match runBody f.body (f.params.zip args) [] with
    | .ok (some q, log) => .ok (q, log)
    | .ok (none, _) => .error "ReturnedNone"
    | .error e => .error e
  else .error "TypeError"

/-- The `multiply` tool exactly as defined in the function-agent notebook:
two parameters `a` and `b`, a docstring, and the single statement
`return a * b`. -/
def multiply : PyFunc :=
  { params := ["a", "b"]
    docstring := "Useful for multiplying two numbers."
    body := [.ret (.mul (.var "a") (.var "b"))] }

/- Part 2: dotenv credential loading.

   `load_dotenv(override=True)` lets a value defined in the `.env` file
   replace a pre-existing process-environment value; `load_dotenv()`
   (override false, the python-dotenv default) keeps a pre-existing
   environment value.  Keys the file does not define are unchanged. -/

/-- Resolution of a single environment key after `load_dotenv`: with
`override` the file value wins when present, otherwise the pre-existing
environment value wins when present. -/
def dotenvKey (override : Bool) (file env : Option String) : Option String :=
  if override then file.orElse (fun _ => env) else env.orElse (fun _ => file)

/- Part 3: the notebooks' local statement language and its evaluator. -/

/-- An LLM client object as constructed by the local code: the model name
requested and, when the local code passed an `api_key=` argument, the value
it passed (so `some none` records that Python `None` was passed). -/
structure LlmClient where
  model : String
  apiKeyArg : Option (Option String)
deriving DecidableEq

/-- Where the agent construction obtains its LLM: from the previously
constructed client (explicit `llm=` argument) or from the external
library's default. -/
inductive LlmSrc
  | fromLlmVar
  | libDefault
deriving DecidableEq

/-- Modelled from the spec: when `OpenAIAgent.from_tools` is called without
an `llm` argument, the external agent library binds the agent to its own
default hosted OpenAI chat model.  The default model identifier lives in
the external library, not in this repository; it is recorded here under a
fixed name, with no explicit api key argument. -/
def libraryDefaultLlm : LlmClient :=
  { model := "openai-library-default", apiKeyArg := none }

/-- An agent object: the LLM client it is bound to, the tool it was given,
its optional system prompt, the verbose flag, and its conversation memory
(the external library appends each user message and each assistant reply). -/
structure Agent where
  llm : LlmClient
  tool : String
  sysPrompt : Option String
  verbose : Bool
  memory : List String
deriving DecidableEq

/-- Outcome of one `agent.chat` / `agent.run` call supplied by the oracle:
either a response text or an exception raised inside the external library. -/
inductive ChatRes
  | ok (r : String)
  | raise (e : String)
deriving DecidableEq

/-- One local Python statement of a notebook cell.  Each constructor
corresponds to one statement of the source notebooks. -/
inductive PStmt
  | loadDotenv (override : Bool)
  | assignGetenv (x v : String)
  | setModuleKeyFromEnv (v : String)
  | defTool (fname : String)
  | constructToolSpec (cls : String)
  | constructLLM (model : String) (keyFromVar : Option String)
  | constructAgent (src : LlmSrc) (tool : String) (sysPrompt : Option String) (verbose : Bool)
  | chatAssign (x u : String)
  | chatPrint (u : String)
  | chatBare (u : String)
  | printVar (x : String)
  | printStrVar (x : String)
  | assignConst (x : String) (v : Option String)
deriving DecidableEq

/-- The local state of a running notebook.  `envKey`/`fileKey` model the
process environment's and the `.env` file's value of OPENAI_API_KEY;
`ctorPending` and `chatPending` are the oracles for calls into the external
library (`none`/`ok` means the call returns, otherwise it raises);
`fs` models the file system visible to the local code; `output` is the text
written to standard output; `chatLog` records, for each chat call made, the
utterance and the agent memory at the moment of the call. -/
structure NbState where
  envKey : Option String
  fileKey : Option String
  openaiModuleKey : Option String
  vars : List (String × Option String)
  tools : List String
  llmVar : Option LlmClient
  agentVar : Option Agent
  agentCtorCount : Nat
  output : List String
  chatLog : List (String × List String)
  fs : List (String × String)
  ctorPending : List (Option String)
  chatPending : List ChatRes
deriving DecidableEq

/-- Look up a notebook variable (most recent binding first). -/
def lookupVar (vs : List (String × Option String)) (x : String) :
    Option (Option String) :=
  (vs.find? (fun p => p.1 == x)).map Prod.snd

/-- Python `print` rendering of a string-or-None value. -/
def pyStr (v : Option String) : String := v.getD "None"

/-- Consume one constructor outcome from the oracle: on success apply `f`
to the state, otherwise surface the raised exception unmodified. -/
def popCtorThen (s : NbState) (f : NbState → NbState) : NbState × Option String :=
  match s.ctorPending with
  | [] => (s, some "OracleExhausted")
  | some e :: rest => ({ s with ctorPending := rest }, some e)
  | none :: rest => (f { s with ctorPending := rest }, none)

/-- One `agent.chat`/`agent.run` call: requires a constructed agent,
consumes one chat outcome, records the call in the log, and on success
appends the user message and the reply to the agent memory. -/
def chatCall (u : String) (s : NbState) : NbState × Except String String :=
  match s.agentVar with
  | none => (s, .error "NameError")
  | some a =>
    match s.chatPending with
    | [] => (s, .error "OracleExhausted")
    | .raise e :: rest =>
      ({ s with chatPending := rest, chatLog := s.chatLog ++ [(u, a.memory)] }, .error e)
    | .ok r :: rest =>
      ({ s with chatPending := rest,
                chatLog := s.chatLog ++ [(u, a.memory)],
                agentVar := some { a with memory := a.memory ++ [u, r] } }, .ok r)

/-- Execute one local statement; the second component is the exception the
statement raised, if any. -/
def execStep (st : PStmt) (s : NbState) : NbState × Option String :=
  match st with
  | .loadDotenv ov =>
    ({ s with envKey := dotenvKey ov s.fileKey s.envKey }, none)
  | .assignGetenv x v =>
    ({ s with vars := (x, if v = "OPENAI_API_KEY" then s.envKey else none) :: s.vars }, none)
  | .setModuleKeyFromEnv v =>
    ({ s with openaiModuleKey := if v = "OPENAI_API_KEY" then s.envKey else none }, none)
  | .defTool f => ({ s with tools := s.tools ++ [f] }, none)
  | .constructToolSpec c => popCtorThen s (fun s' => { s' with tools := s'.tools ++ [c] })
  | .constructLLM m keyVar =>
    match keyVar with
    | none => popCtorThen s (fun s' => { s' with llmVar := some ⟨m, none⟩ })
    | some x =>
      match lookupVar s.vars x with
      | none => (s, some "NameError")
      | some kv => popCtorThen s (fun s' => { s' with llmVar := some ⟨m, some kv⟩ })
  | .constructAgent src tool sys vb =>
    match (match src with
           | .libDefault => some libraryDefaultLlm
           | .fromLlmVar => s.llmVar) with
    | none => (s, some "NameError")
    | some lc =>
      popCtorThen s (fun s' =>
        { s' with agentVar := some ⟨lc, tool, sys, vb, []⟩,
                  agentCtorCount := s'.agentCtorCount + 1 })
  | .chatAssign x u =>
    match chatCall u s with
    | (s', .error e) => (s', some e)
    | (s', .ok r) => ({ s' with vars := (x, some r) :: s'.vars }, none)
  | .chatPrint u =>
    match chatCall u s with
    | (s', .error e) => (s', some e)
    | (s', .ok r) => ({ s' with output := s'.output ++ [r] }, none)
  | .chatBare u =>
    match chatCall u s with
    | (s', .error e) => (s', some e)
    | (s', .ok _) => (s', none)
  | .printVar x =>
    match lookupVar s.vars x with
    | none => (s, some "NameError")
    | some v => ({ s with output := s.output ++ [pyStr v] }, none)
  | .printStrVar x =>
    match lookupVar s.vars x with
    | none => (s, some "NameError")
    | some v => ({ s with output := s.output ++ [pyStr v] }, none)
  | .assignConst x v => ({ s with vars := (x, v) :: s.vars }, none)

/-- Run a list of statements.  There is no exception-handling construct in
the language (the notebooks install none), so the first raised exception
stops execution and becomes the top-level result, unmodified. -/
def runSteps : List PStmt → NbState → NbState × Option String
  | [], s => (s, none)
  | st :: rest, s =>
    match execStep st s with
    | (s', none) => runSteps rest s'
    | (s', some e) => (s', some e)

/-- A notebook: its name and its local statements in source order. -/
structure Notebook where
  name : String
  steps : List PStmt
deriving DecidableEq

/-- The function-agent notebook.  Cells: `load_dotenv(override=True)` and
`api_key = os.getenv("OPENAI_API_KEY")`; `def multiply`; construction of
`FunctionAgent(tools=[multiply], llm=OpenAI(model="gpt-4o-mini",
api_key=api_key), system_prompt=...)` (the inline `OpenAI(...)` call is
evaluated first, modelled as the preceding LLM-construction step);
`main()` awaits `agent.run("What is 1234 * 4567?")` and prints
`str(response)`; finally `response = await main()` rebinds `response` to
the `None` that `main` returns. -/
def functionAgentNotebook : Notebook :=
  { name := "function-agent"
    steps := [
      .loadDotenv true,
      .assignGetenv "api_key" "OPENAI_API_KEY",
      .defTool "multiply",
      .constructLLM "gpt-4o-mini" (some "api_key"),
      .constructAgent .fromLlmVar "multiply"
        (some "You are a helpful assistant that can multiply two numbers.") false,
      .chatAssign "response" "What is 1234 * 4567?",
      .printStrVar "response",
      .assignConst "response" none] }

/-- The DuckDuckGo notebook.  Cells: `load_dotenv()`;
`tool_spec = DuckDuckGoSearchToolSpec()`;
`agent = OpenAIAgent.from_tools(tool_spec.to_tool_list())` (no llm
argument); two chat turns each assigned to a variable and printed. -/
def duckduckgoNotebook : Notebook :=
  { name := "duckduckgo-agent"
    steps := [
      .loadDotenv false,
      .constructToolSpec "DuckDuckGoSearchToolSpec",
      .constructAgent .libDefault "DuckDuckGoSearchToolSpec" none false,
      .chatAssign "response1" "Quantum Computing and AI",
      .printVar "response1",
      .chatAssign "response2" "what are the latest developments in machine learning",
      .printVar "response2"] }

/-- The arXiv research notebook.  Cells: `load_dotenv(override=True)` and
`openai.api_key = os.getenv("OPENAI_API_KEY")`;
`llm = OpenAI(model="gpt-4o-mini")` (no api key argument);
`arxiv_tool = ArxivToolSpec()`;
`agent = OpenAIAgent.from_tools(arxiv_tool.to_tool_list(), llm=llm,
verbose=True)`; one printed chat turn. -/
def arxivNotebook : Notebook :=
  { name := "arxiv_research_agent"
    steps := [
      .loadDotenv true,
      .setModuleKeyFromEnv "OPENAI_API_KEY",
      .constructLLM "gpt-4o-mini" none,
      .constructToolSpec "ArxivToolSpec",
      .constructAgent .fromLlmVar "ArxivToolSpec" none true,
      .chatPrint "Whats going on with the superconductor lk-99"] }

/-- The code-interpreter notebook.  Cells: `load_dotenv(override=True)` and
`openai.api_key = os.getenv("OPENAI_API_KEY")`;
`code_spec = CodeInterpreterToolSpec()` with
`tools = code_spec.to_tool_list()`;
`agent = OpenAIAgent.from_tools(tools, verbose=True)` (no llm argument);
five chat turns wrapped in `print(...)`; and a final bare
`agent.chat("can you do it in one plot")` with no print around it. -/
def codeInterpreterNotebook : Notebook :=
  { name := "code-interpreter"
    steps := [
      .loadDotenv true,
      .setModuleKeyFromEnv "OPENAI_API_KEY",
      .constructToolSpec "CodeInterpreterToolSpec",
      .constructAgent .libDefault "CodeInterpreterToolSpec" none true,
      .chatPrint "Can you help me write some python code to pass to the code_interpreter tool",
      .chatPrint "There is a world_happiness_2016.csv file in the `data` directory (relative path).\n                 Can you write and execute code to tell me columns does it have?",
      .chatPrint "What are the top 10 happiest countries",
      .chatPrint "Can you make a graph of the top 10 happiest countries",
      .chatPrint "I cant see the plot - can you save it locally with file name `output.png`?",
      .chatBare "can you do it in one plot"] }

/-- Run a notebook from a fresh state, given the pre-existing environment
value and the `.env` file value of OPENAI_API_KEY, the two oracles for
external-library calls, and an initial file system. -/
def runNotebook (nb : Notebook) (env0 file : Option String)
    (ctorP : List (Option String)) (chatP : List ChatRes)
    (fs0 : List (String × String)) : NbState × Option String :=
  runSteps nb.steps
    { envKey := env0, fileKey := file, openaiModuleKey := none, vars := [],
      tools := [], llmVar := none, agentVar := none, agentCtorCount := 0,
      output := [], chatLog := [], fs := fs0, ctorPending := ctorP,
      chatPending := chatP }

/-- Number of external constructor calls a notebook makes (tool spec, LLM
client, agent). -/
def ctorCount (nb : Notebook) : Nat :=
  nb.steps.countP (fun st =>
    match st with
    | .constructToolSpec _ => true
    | .constructLLM _ _ => true
    | .constructAgent _ _ _ _ => true
    | _ => false)

/-- Oracle in which every constructor call succeeds. -/
def ctorOks (n : Nat) : List (Option String) := List.replicate n none

/-- Run a notebook with all external constructions succeeding and the given
chat responses. -/
def runOk (nb : Notebook) (env0 file : Option String) (rs : List String)
    (fs0 : List (String × String)) : NbState × Option String :=
  runNotebook nb env0 file (ctorOks (ctorCount nb)) (rs.map ChatRes.ok) fs0

/-- The user utterances a notebook submits, in source order. -/
def utterances (nb : Notebook) : List String :=
  nb.steps.filterMap (fun st =>
    match st with
    | .chatAssign _ u => some u
    | .chatPrint u => some u
    | .chatBare u => some u
    | _ => none)

/-- The key-independent observables of a notebook state: printed output,
the chat calls made, the tools instantiated, and the file system. -/
def NbObs (s : NbState) :
    List String × List (String × List String) × List String × List (String × String) :=
  (s.output, s.chatLog, s.tools, s.fs)

/-- The agent visible through everything except any api key it carries. -/
def agentObs (a : Option Agent) :
    Option (String × String × Option String × Bool × List String) :=
  a.map (fun a => (a.llm.model, a.tool, a.sysPrompt, a.verbose, a.memory))

/-- Expected chat log when the agent memory accumulates: the call for each
utterance sees the memory produced by all previous turns. -/
def accumLog (hist : List String) : List String → List String → List (String × List String)
  | [], _ => []
  | _ :: _, [] => []
  | u :: us, r :: rs => (u, hist) :: accumLog (hist ++ [u, r]) us rs

/-- Is a statement the credential-loading step. -/
def isCredStep (st : PStmt) : Bool :=
  match st with
  | .loadDotenv _ => true
  | _ => false

/-- Is a statement the tool-instantiation step. -/
def isToolInst (st : PStmt) : Bool :=
  match st with
  | .constructToolSpec _ => true
  | .defTool _ => true
  | _ => false

/-- Is a statement the agent-construction step. -/
def isAgentCtor (st : PStmt) : Bool :=
  match st with
  | .constructAgent _ _ _ _ => true
  | _ => false

/-- Is a statement a chat turn. -/
def isChatTurn (st : PStmt) : Bool :=
  match st with
  | .chatAssign _ _ => true
  | .chatPrint _ => true
  | .chatBare _ => true
  | _ => false

/-- The setup pattern every notebook is claimed to follow: exactly one tool
instantiation and one agent construction; the credential load comes first,
then the tool, then the agent, and every chat turn comes after the agent
construction; there is at least one chat turn. -/
def setupPattern (nb : Notebook) : Bool :=
  let ss := nb.steps
  let credIdx := ss.findIdx isCredStep
  let toolIdx := ss.findIdx isToolInst
  let agentIdx := ss.findIdx isAgentCtor
  (ss.countP isCredStep = 1 : Bool) &&
  (ss.countP isToolInst = 1 : Bool) &&
  (ss.countP isAgentCtor = 1 : Bool) &&
  decide (credIdx < toolIdx) && decide (toolIdx < agentIdx) &&
  decide (0 < ss.countP isChatTurn) &&
  (ss.enum.all (fun p => !(isChatTurn p.2) || decide (agentIdx < p.1)))

/-- The override argument of the notebook's `load_dotenv` call. -/
def dotenvOverride (nb : Notebook) : Option Bool :=
  (nb.steps.filterMap (fun st =>
    match st with
    | .loadDotenv ov => some ov
    | _ => none)).head?

/- Helper lemmas shared by the claim theorems. -/

/-- A chat call never touches the file system. -/
theorem chatCall_preserves_fs (u : String) (s : NbState) :
    ((chatCall u s).1).fs = s.fs := by
  unfold chatCall
  (repeat' split) <;> rfl

/-- Consuming a constructor outcome preserves the file system whenever the
success continuation does. -/
theorem popCtorThen_preserves_fs (s : NbState) (f : NbState → NbState)
    (h : ∀ t, (f t).fs = t.fs) : ((popCtorThen s f).1).fs = s.fs := by
  unfold popCtorThen
  (repeat' split) <;> simp [h]

/-- No local statement modifies the file system. -/
theorem execStep_preserves_fs (st : PStmt) (s : NbState) :
    (execStep st s).1.fs = s.fs := by
  cases st with
  | loadDotenv ov => rfl
  | assignGetenv x v => rfl
  | setModuleKeyFromEnv v => rfl
  | defTool f => rfl
  | constructToolSpec c => exact popCtorThen_preserves_fs _ _ (fun t => rfl)
  | constructLLM m keyVar =>
    cases keyVar with
    | none => exact popCtorThen_preserves_fs _ _ (fun t => rfl)
    | some x =>
      simp only [execStep]
      split
      · rfl
      · exact popCtorThen_preserves_fs _ _ (fun t => rfl)
  | constructAgent src tool sys vb =>
    simp only [execStep]
    split
    · rfl
    · exact popCtorThen_preserves_fs _ _ (fun t => rfl)
  | chatAssign x u =>
    simp only [execStep]
    split <;> rename_i s' r h <;>
      (have hfs := chatCall_preserves_fs u s; rw [h] at hfs; exact hfs)
  | chatPrint u =>
    simp only [execStep]
    split <;> rename_i s' r h <;>
      (have hfs := chatCall_preserves_fs u s; rw [h] at hfs; exact hfs)
  | chatBare u =>
    simp only [execStep]
    split <;> rename_i s' r h <;>
      (have hfs := chatCall_preserves_fs u s; rw [h] at hfs; exact hfs)
  | printVar x =>
    simp only [execStep]
    split <;> rfl
  | printStrVar x =>
    simp only [execStep]
    split <;> rfl
  | assignConst x v => rfl

/-- Running any list of local statements leaves the file system unchanged,
whether or not an external call raises. -/
theorem runSteps_preserves_fs (ss : List PStmt) (s : NbState) :
    (runSteps ss s).1.fs = s.fs := by
  induction ss generalizing s with
  | nil => rfl
  | cons st rest ih =>
    show (runSteps (st :: rest) s).1.fs = s.fs
    rw [runSteps]
    rcases h : execStep st s with ⟨s', err⟩
    have hfs : s'.fs = s.fs := by
      have := execStep_preserves_fs st s
      rw [h] at this
      exact this
    cases err with
    | none => simpa [hfs] using ih s'
    | some e => simpa using hfs

/-- C1: for every pair of inputs `a` and `b`, the `multiply` function of the
function-agent notebook returns exactly the product `a * b`, and its body
performs no other effect (the effect log is empty). -/
theorem multiply_returns_product (a b : ℚ) :
    callFunc multiply [a, b] = .ok (a * b, []) := rfl

/-- C8: the `multiply` function is commutative: calling it on `[a, b]` and
on `[b, a]` yields the same result. -/
theorem multiply_commutative (a b : ℚ) :
    callFunc multiply [a, b] = callFunc multiply [b, a] := by
  show Except.ok (a * b, ([] : List ℚ)) = Except.ok (b * a, ([] : List ℚ))
  rw [mul_comm]

/-- C2: the notebooks install no exception handler: whenever a call into
the external library (tool or LLM or agent construction, or a chat turn)
raises an exception `e`, the notebook run terminates with exactly that
exception, unmodified, with no local recovery or retry.  Each conjunct
covers one external call site of one notebook, in program order. -/
theorem notebooks_propagate_library_errors :
    (∀ e0 f rest chatP fs0 e,
      (runNotebook functionAgentNotebook e0 f (some e :: rest) chatP fs0).2 = some e) ∧
    (∀ e0 f rest chatP fs0 e,
      (runNotebook functionAgentNotebook e0 f (none :: some e :: rest) chatP fs0).2 = some e) ∧
    (∀ e0 f rest fs0 e,
      (runNotebook functionAgentNotebook e0 f (ctorOks 2) (.raise e :: rest) fs0).2 = some e) ∧
    (∀ e0 f rest chatP fs0 e,
      (runNotebook duckduckgoNotebook e0 f (some e :: rest) chatP fs0).2 = some e) ∧
    (∀ e0 f rest chatP fs0 e,
      (runNotebook duckduckgoNotebook e0 f (none :: some e :: rest) chatP fs0).2 = some e) ∧
    (∀ e0 f rest fs0 e,
      (runNotebook duckduckgoNotebook e0 f (ctorOks 2) (.raise e :: rest) fs0).2 = some e) ∧
    (∀ e0 f rest fs0 r1 e,
      (runNotebook duckduckgoNotebook e0 f (ctorOks 2) (.ok r1 :: .raise e :: rest) fs0).2 = some e) ∧
    (∀ e0 f rest chatP fs0 e,
      (runNotebook arxivNotebook e0 f (some e :: rest) chatP fs0).2 = some e) ∧
    (∀ e0 f rest chatP fs0 e,
      (runNotebook arxivNotebook e0 f (none :: some e :: rest) chatP fs0).2 = some e) ∧
    (∀ e0 f rest chatP fs0 e,
      (runNotebook arxivNotebook e0 f (none :: none :: some e :: rest) chatP fs0).2 = some e) ∧
    (∀ e0 f rest fs0 e,
      (runNotebook arxivNotebook e0 f (ctorOks 3) (.raise e :: rest) fs0).2 = some e) ∧
    (∀ e0 f rest chatP fs0 e,
      (runNotebook codeInterpreterNotebook e0 f (some e :: rest) chatP fs0).2 = some e) ∧
    (∀ e0 f rest chatP fs0 e,
      (runNotebook codeInterpreterNotebook e0 f (none :: some e :: rest) chatP fs0).2 = some e) ∧
    (∀ e0 f rest fs0 e,
      (runNotebook codeInterpreterNotebook e0 f (ctorOks 2) (.raise e :: rest) fs0).2 = some e) ∧
    (∀ e0 f rest fs0 r1 e,
      (runNotebook codeInterpreterNotebook e0 f (ctorOks 2)
        (.ok r1 :: .raise e :: rest) fs0).2 = some e) ∧
    (∀ e0 f rest fs0 r1 r2 e,
      (runNotebook codeInterpreterNotebook e0 f (ctorOks 2)
        (.ok r1 :: .ok r2 :: .raise e :: rest) fs0).2 = some e) ∧
    (∀ e0 f rest fs0 r1 r2 r3 e,
      (runNotebook codeInterpreterNotebook e0 f (ctorOks 2)
        (.ok r1 :: .ok r2 :: .ok r3 :: .raise e :: rest) fs0).2 = some e) ∧
    (∀ e0 f rest fs0 r1 r2 r3 r4 e,
      (runNotebook codeInterpreterNotebook e0 f (ctorOks 2)
        (.ok r1 :: .ok r2 :: .ok r3 :: .ok r4 :: .raise e :: rest) fs0).2 = some e) ∧
    (∀ e0 f rest fs0 r1 r2 r3 r4 r5 e,
      (runNotebook codeInterpreterNotebook e0 f (ctorOks 2)
        (.ok r1 :: .ok r2 :: .ok r3 :: .ok r4 :: .ok r5 :: .raise e :: rest) fs0).2 = some e) := by
  refine ⟨?_, ?_, ?_, ?_, ?_, ?_, ?_, ?_, ?_, ?_, ?_, ?_, ?_, ?_, ?_, ?_, ?_, ?_, ?_⟩ <;>
    (intros; rfl)

/-- C5: when OPENAI_API_KEY is unset (no environment value, no `.env`
value), the function-agent notebook still constructs the LLM client with an
explicit null key and constructs the agent, raising nothing locally: the
run completes without error, the client records `api_key=None`, and exactly
one agent is constructed. -/
theorem missing_key_not_checked_locally (r : String) (fs0 : List (String × String)) :
    (runOk functionAgentNotebook none none [r] fs0).2 = none ∧
    (runOk functionAgentNotebook none none [r] fs0).1.llmVar =
      some { model := "gpt-4o-mini", apiKeyArg := some none } ∧
    (runOk functionAgentNotebook none none [r] fs0).1.agentCtorCount = 1 ∧
    ((runOk functionAgentNotebook none none [r] fs0).1.agentVar.map Agent.llm) =
      some { model := "gpt-4o-mini", apiKeyArg := some none } := by
  exact ⟨rfl, rfl, rfl, rfl⟩

/-- C9: the function-agent, arxiv and code-interpreter notebooks call
`load_dotenv(override=True)`, so whenever the `.env` file defines
OPENAI_API_KEY its value replaces any pre-existing environment value and is
the value those notebooks subsequently read; the duckduckgo notebook calls
`load_dotenv()` without override, so a pre-existing environment value takes
precedence over the file there. -/
theorem dotenv_override_precedence :
    dotenvOverride functionAgentNotebook = some true ∧
    dotenvOverride arxivNotebook = some true ∧
    dotenvOverride codeInterpreterNotebook = some true ∧
    dotenvOverride duckduckgoNotebook = some false ∧
    (∀ e0 v fs0 r,
      (runOk functionAgentNotebook e0 (some v) [r] fs0).1.envKey = some v ∧
      lookupVar (runOk functionAgentNotebook e0 (some v) [r] fs0).1.vars "api_key" =
        some (some v)) ∧
    (∀ e0 v fs0 r,
      (runOk arxivNotebook e0 (some v) [r] fs0).1.openaiModuleKey = some v) ∧
    (∀ e0 v fs0 r1 r2 r3 r4 r5 r6,
      (runOk codeInterpreterNotebook e0 (some v) [r1, r2, r3, r4, r5, r6] fs0).1.openaiModuleKey =
        some v) ∧
    (∀ w f fs0 r1 r2,
      (runOk duckduckgoNotebook (some w) f [r1, r2] fs0).1.envKey = some w) := by
  refine ⟨rfl, rfl, rfl, rfl, ?_, ?_, ?_, ?_⟩
  · intros; exact ⟨rfl, rfl⟩
  · intros; rfl
  · intros; rfl
  · intros; rfl

/-- C3 counterexample: the claim that every notebook's chat-turn responses
are printed fails on the code-interpreter notebook: running it with six
distinct responses prints only the first five; the sixth turn is the bare
expression `agent.chat("can you do it in one plot")` with no print. -/
theorem code_interpreter_sixth_response_unprinted :
    (runOk codeInterpreterNotebook none none ["r1", "r2", "r3", "r4", "r5", "r6"] []).1.output
      = ["r1", "r2", "r3", "r4", "r5"] ∧
    "r6" ∉ (runOk codeInterpreterNotebook none none
      ["r1", "r2", "r3", "r4", "r5", "r6"] []).1.output := by
  exact ⟨rfl, by decide⟩

/-- C3 (amended): every notebook loads credentials, instantiates exactly
one tool, and constructs exactly one agent, in that order, with every chat
turn after the agent construction; the constructed agent is bound to that
notebook's tool and to a hosted OpenAI LLM (the explicitly constructed
gpt-4o-mini client, or the external library's default hosted model when no
llm argument is passed); the runs complete without local error and print
the chat responses, except the final turn of the code-interpreter notebook,
whose response is not printed by the local code. -/
theorem notebooks_setup_order_and_printing :
    (setupPattern functionAgentNotebook = true ∧
     setupPattern duckduckgoNotebook = true ∧
     setupPattern arxivNotebook = true ∧
     setupPattern codeInterpreterNotebook = true) ∧
    (∀ e0 f fs0 r,
      (runOk functionAgentNotebook e0 f [r] fs0).2 = none ∧
      (runOk functionAgentNotebook e0 f [r] fs0).1.output = [r] ∧
      ((runOk functionAgentNotebook e0 f [r] fs0).1.agentVar.map
        (fun a => (a.llm, a.tool))) =
        some ({ model := "gpt-4o-mini", apiKeyArg := some (dotenvKey true f e0) }, "multiply")) ∧
    (∀ e0 f fs0 r1 r2,
      (runOk duckduckgoNotebook e0 f [r1, r2] fs0).2 = none ∧
      (runOk duckduckgoNotebook e0 f [r1, r2] fs0).1.output = [r1, r2] ∧
      ((runOk duckduckgoNotebook e0 f [r1, r2] fs0).1.agentVar.map
        (fun a => (a.llm, a.tool))) =
        some (libraryDefaultLlm, "DuckDuckGoSearchToolSpec")) ∧
    (∀ e0 f fs0 r,
      (runOk arxivNotebook e0 f [r] fs0).2 = none ∧
      (runOk arxivNotebook e0 f [r] fs0).1.output = [r] ∧
      ((runOk arxivNotebook e0 f [r] fs0).1.agentVar.map
        (fun a => (a.llm, a.tool))) =
        some ({ model := "gpt-4o-mini", apiKeyArg := none }, "ArxivToolSpec")) ∧
    (∀ e0 f fs0 r1 r2 r3 r4 r5 r6,
      (runOk codeInterpreterNotebook e0 f [r1, r2, r3, r4, r5, r6] fs0).2 = none ∧
      (runOk codeInterpreterNotebook e0 f [r1, r2, r3, r4, r5, r6] fs0).1.output =
        [r1, r2, r3, r4, r5] ∧
      ((runOk codeInterpreterNotebook e0 f [r1, r2, r3, r4, r5, r6] fs0).1.agentVar.map
        (fun a => (a.llm, a.tool))) =
        some (libraryDefaultLlm, "CodeInterpreterToolSpec")) := by
  refine ⟨⟨rfl, rfl, rfl, rfl⟩, ?_, ?_, ?_, ?_⟩ <;> (intros; exact ⟨rfl, rfl, rfl⟩)

/-- C4: the OPENAI_API_KEY value is handled opaquely by the three notebooks
that read it.  Two runs that differ only in the environment and `.env`
values of the key have identical printed output, chat calls, tools, file
system, key-independent agent observables, and error result; and the value
forwarded to the client is exactly the value `os.getenv` read, unmodified
(the function-agent notebook passes it as the `api_key` argument, the arxiv
and code-interpreter notebooks store it in `openai.api_key`). -/
theorem api_key_opaque_noninterference :
    (∀ e1 f1 e2 f2 fs0 r,
      NbObs (runOk functionAgentNotebook e1 f1 [r] fs0).1 =
        NbObs (runOk functionAgentNotebook e2 f2 [r] fs0).1 ∧
      agentObs (runOk functionAgentNotebook e1 f1 [r] fs0).1.agentVar =
        agentObs (runOk functionAgentNotebook e2 f2 [r] fs0).1.agentVar ∧
      (runOk functionAgentNotebook e1 f1 [r] fs0).2 =
        (runOk functionAgentNotebook e2 f2 [r] fs0).2) ∧
    (∀ e1 f1 e2 f2 fs0 r,
      NbObs (runOk arxivNotebook e1 f1 [r] fs0).1 =
        NbObs (runOk arxivNotebook e2 f2 [r] fs0).1 ∧
      agentObs (runOk arxivNotebook e1 f1 [r] fs0).1.agentVar =
        agentObs (runOk arxivNotebook e2 f2 [r] fs0).1.agentVar ∧
      (runOk arxivNotebook e1 f1 [r] fs0).2 =
        (runOk arxivNotebook e2 f2 [r] fs0).2) ∧
    (∀ e1 f1 e2 f2 fs0 r1 r2 r3 r4 r5 r6,
      NbObs (runOk codeInterpreterNotebook e1 f1 [r1, r2, r3, r4, r5, r6] fs0).1 =
        NbObs (runOk codeInterpreterNotebook e2 f2 [r1, r2, r3, r4, r5, r6] fs0).1 ∧
      agentObs (runOk codeInterpreterNotebook e1 f1 [r1, r2, r3, r4, r5, r6] fs0).1.agentVar =
        agentObs (runOk codeInterpreterNotebook e2 f2 [r1, r2, r3, r4, r5, r6] fs0).1.agentVar ∧
      (runOk codeInterpreterNotebook e1 f1 [r1, r2, r3, r4, r5, r6] fs0).2 =
        (runOk codeInterpreterNotebook e2 f2 [r1, r2, r3, r4, r5, r6] fs0).2) ∧
    (∀ e0 f fs0 r,
      (runOk functionAgentNotebook e0 f [r] fs0).1.llmVar =
        some { model := "gpt-4o-mini", apiKeyArg := some (dotenvKey true f e0) }) ∧
    (∀ e0 f fs0 r,
      (runOk arxivNotebook e0 f [r] fs0).1.openaiModuleKey = dotenvKey true f e0) ∧
    (∀ e0 f fs0 r1 r2 r3 r4 r5 r6,
      (runOk codeInterpreterNotebook e0 f [r1, r2, r3, r4, r5, r6] fs0).1.openaiModuleKey =
        dotenvKey true f e0) := by
  refine ⟨?_, ?_, ?_, ?_, ?_, ?_⟩
  · intros; exact ⟨rfl, rfl, rfl⟩
  · intros; exact ⟨rfl, rfl, rfl⟩
  · intros; exact ⟨rfl, rfl, rfl⟩
  · intros; rfl
  · intros; rfl
  · intros; rfl

/-- C6 counterexample: the claim that the local code prints the returned
text of every utterance fails on the code-interpreter notebook: the
utterance of the final turn is chatted exactly once, yet its response is
absent from the printed output. -/
theorem final_utterance_response_not_printed :
    (((runOk codeInterpreterNotebook none none ["a1", "a2", "a3", "a4", "a5", "a6"] []).1.chatLog.map
        Prod.fst).count "can you do it in one plot") = 1 ∧
    "a6" ∉ (runOk codeInterpreterNotebook none none
      ["a1", "a2", "a3", "a4", "a5", "a6"] []).1.output := by
  exact ⟨by decide, by decide⟩

/-- C6 (amended): in every notebook, each user utterance leads to exactly
one agent call, in source order with no retry (the log of chat calls is
exactly the utterance list), and the returned text is printed verbatim with
no other local processing, except the final turn of the code-interpreter
notebook, whose returned text is not printed by the local code. -/
theorem one_agent_call_per_utterance :
    (∀ e0 f fs0 r,
      (runOk functionAgentNotebook e0 f [r] fs0).1.chatLog.map Prod.fst =
        utterances functionAgentNotebook ∧
      (runOk functionAgentNotebook e0 f [r] fs0).1.output = [r]) ∧
    (∀ e0 f fs0 r1 r2,
      (runOk duckduckgoNotebook e0 f [r1, r2] fs0).1.chatLog.map Prod.fst =
        utterances duckduckgoNotebook ∧
      (runOk duckduckgoNotebook e0 f [r1, r2] fs0).1.output = [r1, r2]) ∧
    (∀ e0 f fs0 r,
      (runOk arxivNotebook e0 f [r] fs0).1.chatLog.map Prod.fst =
        utterances arxivNotebook ∧
      (runOk arxivNotebook e0 f [r] fs0).1.output = [r]) ∧
    (∀ e0 f fs0 r1 r2 r3 r4 r5 r6,
      (runOk codeInterpreterNotebook e0 f [r1, r2, r3, r4, r5, r6] fs0).1.chatLog.map Prod.fst =
        utterances codeInterpreterNotebook ∧
      (runOk codeInterpreterNotebook e0 f [r1, r2, r3, r4, r5, r6] fs0).1.output =
        [r1, r2, r3, r4, r5]) := by
  refine ⟨?_, ?_, ?_, ?_⟩ <;> (intros; exact ⟨rfl, rfl⟩)

/-- C7: the notebooks' local code persists no state: under every oracle
(including runs in which an external call raises) the file system is left
exactly as it was, and the only locally produced output is the list of
human-readable strings printed to standard output. -/
theorem local_code_writes_no_files :
    (∀ e0 f ctorP chatP fs0,
      (runNotebook functionAgentNotebook e0 f ctorP chatP fs0).1.fs = fs0) ∧
    (∀ e0 f ctorP chatP fs0,
      (runNotebook duckduckgoNotebook e0 f ctorP chatP fs0).1.fs = fs0) ∧
    (∀ e0 f ctorP chatP fs0,
      (runNotebook arxivNotebook e0 f ctorP chatP fs0).1.fs = fs0) ∧
    (∀ e0 f ctorP chatP fs0,
      (runNotebook codeInterpreterNotebook e0 f ctorP chatP fs0).1.fs = fs0) ∧
    (∀ e0 f fs0 r,
      (runOk functionAgentNotebook e0 f [r] fs0).1.output = [r]) ∧
    (∀ e0 f fs0 r1 r2,
      (runOk duckduckgoNotebook e0 f [r1, r2] fs0).1.output = [r1, r2]) ∧
    (∀ e0 f fs0 r,
      (runOk arxivNotebook e0 f [r] fs0).1.output = [r]) ∧
    (∀ e0 f fs0 r1 r2 r3 r4 r5 r6,
      (runOk codeInterpreterNotebook e0 f [r1, r2, r3, r4, r5, r6] fs0).1.output =
        [r1, r2, r3, r4, r5]) := by
  refine ⟨?_, ?_, ?_, ?_, ?_, ?_, ?_, ?_⟩
  · intros; exact runSteps_preserves_fs _ _
  · intros; exact runSteps_preserves_fs _ _
  · intros; exact runSteps_preserves_fs _ _
  · intros; exact runSteps_preserves_fs _ _
  · intros; rfl
  · intros; rfl
  · intros; rfl
  · intros; rfl

/-- C10: in every notebook the agent is constructed exactly once, every
chat turn happens after that single construction, and the conversation
state accumulates: the call for each utterance sees the agent memory
produced by all prior turns (the chat log equals the accumulation of the
utterance/response history). -/
theorem single_agent_memory_accumulates :
    (functionAgentNotebook.steps.countP isAgentCtor = 1 ∧
     duckduckgoNotebook.steps.countP isAgentCtor = 1 ∧
     arxivNotebook.steps.countP isAgentCtor = 1 ∧
     codeInterpreterNotebook.steps.countP isAgentCtor = 1) ∧
    (∀ e0 f fs0 r,
      (runOk functionAgentNotebook e0 f [r] fs0).1.agentCtorCount = 1 ∧
      (runOk functionAgentNotebook e0 f [r] fs0).1.chatLog =
        accumLog [] (utterances functionAgentNotebook) [r]) ∧
    (∀ e0 f fs0 r1 r2,
      (runOk duckduckgoNotebook e0 f [r1, r2] fs0).1.agentCtorCount = 1 ∧
      (runOk duckduckgoNotebook e0 f [r1, r2] fs0).1.chatLog =
        accumLog [] (utterances duckduckgoNotebook) [r1, r2]) ∧
    (∀ e0 f fs0 r,
      (runOk arxivNotebook e0 f [r] fs0).1.agentCtorCount = 1 ∧
      (runOk arxivNotebook e0 f [r] fs0).1.chatLog =
        accumLog [] (utterances arxivNotebook) [r]) ∧
    (∀ e0 f fs0 r1 r2 r3 r4 r5 r6,
      (runOk codeInterpreterNotebook e0 f [r1, r2, r3, r4, r5, r6] fs0).1.agentCtorCount = 1 ∧
      (runOk codeInterpreterNotebook e0 f [r1, r2, r3, r4, r5, r6] fs0).1.chatLog =
        accumLog [] (utterances codeInterpreterNotebook) [r1, r2, r3, r4, r5, r6]) := by
  refine ⟨⟨rfl, rfl, rfl, rfl⟩, ?_, ?_, ?_, ?_⟩ <;> (intros; exact ⟨rfl, rfl⟩)
